import Mathlib

/-!
Shallow embedding of the gmail-mcp repository (TypeScript) in Lean 4.

Embedded source:
- `src/gmail-client.ts` : `GmailClient.sendEmail`, `GmailClient.searchEmails`,
  `GmailClient.getMessage`, `GmailClient.extractHeader`.
- `auth.ts` (unnamed part) : `AuthManager.refreshTokenIfNeeded`.
- Tool-handler code of the server entry point (`send_email`, `search_emails`,
  `read_email`, `send_html_email`, `manage_labels` handlers) and the
  error-handling variant of `refreshTokenIfNeeded` that re-runs `authenticate()`.

JavaScript `undefined`/`null` fields become `Option`; `Date.now()` becomes an
explicit `now : Nat` parameter (milliseconds); thrown exceptions become
`Except`; network calls become explicit outcome parameters, and the externally
visible actions of an operation are recorded as a trace of `Ev` events.
-/

namespace GmailMcp

/-- Externally visible actions performed by an operation, in order. -/
inductive Ev where
  /-- Event: a token-refresh exchange against the token endpoint
      (`this.auth.refreshAccessToken()`) -/
  | refreshExchange : Ev
  /-- Event: an interactive browser consent flow is launched
      (`authenticate({scopes, keyfilePath})` from `@google-cloud/local-auth`) -/
  | consentLaunch : Ev
  /-- Event: `gmail.users.messages.send({userId, requestBody: {raw}})`. -/
  | apiSend (raw : String) : Ev
  /-- Event: `gmail.users.messages.list({userId, q, maxResults})`. -/
  | apiList (q : String) (maxResults : Nat) : Ev
  /-- Event: `gmail.users.messages.get({userId, id})`. -/
  | apiGet (id : String) : Ev
  /-- Event: `gmail.users.messages.modify({userId, id, requestBody})`. -/
  | apiModify (id : String) : Ev
  deriving DecidableEq, Repr

/-- Parameters of `GmailClient.sendEmail` (gmail-client.ts:19-25).
`cc`/`bcc` are optional in the TypeScript signature; the source field `to` is a reserved token in Lean and is embedded as `toAddrs`. -/
structure SendParams where
  toAddrs : List String
  subject : String
  body : String
  cc : Option (List String) := none
  bcc : Option (List String) := none
  deriving DecidableEq, Repr

/-- Embeds `array.join(', ')` on the recipient list. -/
def joinAddrs (l : List String) : String := String.intercalate ", " l

/-- Embeds `messageParts.join('\r\n')` (gmail-client.ts:42). -/
def crlfJoin : List String → String
  | [] => ""
  | [s] => s
  | s :: rest => s ++ "\r\n" ++ crlfJoin rest

/-- The `messageParts` array built by `GmailClient.sendEmail`
(gmail-client.ts:28-40): `To` and `Subject` headers, then `Cc`/`Bcc` only when
present and non-empty (JS truthiness of `cc?.length`), then the Content-Type
header, a blank line, and the body. -/
def sendMessageParts (p : SendParams) : List String :=
  ["To: " ++ joinAddrs p.toAddrs, "Subject: " ++ p.subject]
    ++ (match p.cc with
        | some l => if l.length ≠ 0 then ["Cc: " ++ joinAddrs l] else []
        | none => [])
    ++ (match p.bcc with
        | some l => if l.length ≠ 0 then ["Bcc: " ++ joinAddrs l] else []
        | none => [])
    ++ ["Content-Type: text/plain; charset=utf-8", "", p.body]

/-- The raw RFC 2822 message composed by `sendEmail` (gmail-client.ts:42),
before base64url transport encoding: this is the decoded form of the `raw`
field submitted to the API. -/
def sendMessage (p : SendParams) : String := crlfJoin (sendMessageParts p)

/-- The event trace of `GmailClient.sendEmail` (gmail-client.ts:19-53): the
method performs no validation and no token handling of its own; it composes
the message and immediately submits it to the mail API. -/
def sendEmailEvents (p : SendParams) : List Ev :=
  [Ev.apiSend (sendMessage p)]

/-! ## AuthManager (auth.ts) -/

/-- Errors the token endpoint / auth layer can produce. `invalidGrant` is the
terminal `invalid_grant` class; `reauthenticationRequired` is the error type
the specification postulates; nothing in the source ever constructs it. -/
inductive AuthError where
  | invalidGrant : AuthError
  | reauthenticationRequired : AuthError
  | transientNetwork : AuthError
  deriving DecidableEq, Repr

/-- The `credentials` object stored on the `OAuth2Client`
(google-auth-library shape). `expiry_date` may be `undefined`/`null`
(embedded as `none`) or any number, `0` included. -/
structure Credentials where
  access_token : Option String := none
  refresh_token : Option String := none
  expiry_date : Option Nat := none
  deriving DecidableEq, Repr

/-- JS truthiness of `this.auth?.credentials.expiry_date`:
`undefined`, `null` and `0` are falsy. -/
def expiryTruthy (c : Credentials) : Bool :=
  match c.expiry_date with
  | some e => e ≠ 0
  | none => false

/-- The guard condition of `AuthManager.refreshTokenIfNeeded` (auth.ts:632-633):
`this.auth?.credentials.expiry_date && Date.now() >= this.auth.credentials.expiry_date`. -/
def refreshGuard (now : Nat) (c : Credentials) : Bool :=
  expiryTruthy c && decide (now ≥ c.expiry_date.getD 0)

/-- Embeds `AuthManager.refreshTokenIfNeeded` (auth.ts:631-642), with `Date.now()`
passed in as `now` and the outcome of the single
`this.auth.refreshAccessToken()` exchange passed in as `exchange`.
Returns the resulting credentials (or the rethrown error) together with the
trace of externally visible events. On exchange failure the method logs and
rethrows the original error: there is no retry, no translation to another
error type, and no consent flow. -/
def refreshTokenIfNeeded (now : Nat) (c : Credentials)
    (exchange : Except AuthError Credentials) :
    Except AuthError Credentials × List Ev :=
  if refreshGuard now c then
    match exchange with
    | Except.ok newCreds => (Except.ok newCreds, [Ev.refreshExchange])
    | Except.error e => (Except.error e, [Ev.refreshExchange])
  else
    (Except.ok c, [])

/-- Embeds `GmailClient.authenticate` (tutorial gmail-client.ts:230-248): first try
`loadSavedCredentials()`; only when that yields no client is the interactive
consent flow (`authenticate({scopes, keyfilePath})`) launched. `stored` is
the result of reading `token.json`; `consent` is the credential triple the
consent flow would return. -/
def authenticateFlow (stored : Option Credentials) (consent : Credentials) :
    Credentials × List Ev :=
  match stored with
  | some c => (c, [])
  | none => (consent, [Ev.consentLaunch])

/-- The error-handling variant of `refreshTokenIfNeeded` shown in the
tutorial (part_000:457-469): on refresh failure it logs and then re-runs the
full authentication flow (`await this.authenticate()`); the caught error is
swallowed, never rethrown. -/
def refreshTokenIfNeededVariant (now : Nat) (c : Credentials)
    (exchange : Except AuthError Credentials)
    (stored : Option Credentials) (consent : Credentials) :
    Except AuthError Credentials × List Ev :=
  if refreshGuard now c then
    match exchange with
    | Except.ok newCreds => (Except.ok newCreds, [Ev.refreshExchange])
    | Except.error _ =>
        let auth := authenticateFlow stored consent
        (Except.ok auth.1, Ev.refreshExchange :: auth.2)
  else
    (Except.ok c, [])

/-! ## extractHeader (gmail-client.ts:91-96) -/

/-- A header of a Gmail API message. The runtime value is `any`-typed in the
source; `value` may be absent, which `extractHeader` defends against with
`header?.value || ''`. -/
structure GmailHeader where
  name : String
  value : Option String
  deriving DecidableEq, Repr

/-- The `payload` of a Gmail API message; `headers` may be absent
(`message.payload?.headers?` in the source). -/
structure GmailPayload where
  headers : Option (List GmailHeader)
  deriving DecidableEq, Repr

/-- A Gmail API message as consumed by `extractHeader` and `searchEmails`:
`payload` may be absent. -/
structure GmailMessageData where
  id : String
  threadId : String
  snippet : String
  payload : Option GmailPayload
  deriving DecidableEq, Repr

/-- Lower-casing of a header name, character by character
(`String.toLower` of core Lean is not kernel-reducible, so the per-character
equivalent is used; header names are ASCII). -/
def lowerStr (s : String) : String := String.mk (s.data.map Char.toLower)

/-- Case-insensitive header-name match:
`h.name.toLowerCase() === headerName.toLowerCase()` (gmail-client.ts:93). -/
def headerMatches (headerName : String) (h : GmailHeader) : Bool :=
  lowerStr h.name == lowerStr headerName

/-- Embeds `GmailClient.extractHeader` (gmail-client.ts:91-96):
`message.payload?.headers?.find(h => h.name.toLowerCase() === headerName.toLowerCase())`
followed by `header?.value || ''`. Every absence (payload, headers, match,
value) yields `''`; so does a present-but-empty value (JS `||`). -/
def extractHeader (message : GmailMessageData) (headerName : String) : String :=
  match message.payload with
  | none => ""
  | some p =>
    match p.headers with
    | none => ""
    | some hs =>
      match hs.find? (headerMatches headerName) with
      | none => ""
      | some h =>
        match h.value with
        | some v => v
        | none => ""

/-! ## searchEmails (gmail-client.ts:55-81)

`searchEmails` lists message ids, then fetches each id's details with
`Promise.all((res.data.messages || []).map(async msg => ...))`. `Promise.all`
starts one task per element and, whatever order the tasks complete in, writes
each task's result into the slot of its original index. We embed that
semantics explicitly: a completion schedule (a list of slot indices in
completion order) fills an initially empty slot array, and the promise
resolves once every slot is filled. -/

/-- An entry of `res.data.messages` returned by `users.messages.list`. -/
structure MsgRef where
  id : String
  threadId : String
  deriving DecidableEq, Repr

/-- The shaped per-message record built by `searchEmails`
(gmail-client.ts:65-72). The source field `from` is a reserved token in Lean
and is embedded as `fromAddr`. -/
structure ShapedMessage where
  id : String
  threadId : String
  snippet : String
  subject : String
  fromAddr : String
  date : String
  deriving DecidableEq, Repr

/-- The result object of `searchEmails` (gmail-client.ts:76-80). -/
structure SearchEmailsResult where
  messages : List ShapedMessage
  resultSizeEstimate : Nat
  nextPageToken : Option String
  deriving DecidableEq, Repr

/-- The body of the `map` callback (gmail-client.ts:63-73): fetch the
message's details (`getMessage`, modelled by the `store` oracle mapping id to
the API's response) and extract snippet and headers. -/
def shapeMessage (store : String → GmailMessageData) (msg : MsgRef) :
    ShapedMessage :=
  let details := store msg.id
  { id := msg.id
    threadId := msg.threadId
    snippet := details.snippet
    subject := extractHeader details "Subject"
    fromAddr := extractHeader details "From"
    date := extractHeader details "Date" }

/-- One completion step of `Promise.all`: the task of slot `i` completes and
its result `vals.get? i` is written into slot `i` of the result array. -/
def fillSlots (vals : List α) (sched : List Nat) (acc : List (Option α)) :
    List (Option α) :=
  sched.foldl (fun a i => a.set i vals[i]?) acc

/-- Resolve the `Promise.all`: `some` only once every slot is filled. -/
def collectSlots : List (Option α) → Option (List α)
  | [] => some []
  | none :: _ => none
  | some a :: rest => (collectSlots rest).map (a :: ·)

/-- Embeds `Promise.all(tasks.map(f))` under an explicit completion schedule
`sched`: slots start empty, each completion writes its own index, and the
promise resolves when all slots are filled. -/
def promiseAll (vals : List α) (sched : List Nat) : Option (List α) :=
  collectSlots (fillSlots vals sched (List.replicate vals.length none))

/-- A schedule is complete when every task eventually completes. Stated over
`List.range n` so concrete instances are decidable. -/
def completeSchedule (n : Nat) (sched : List Nat) : Prop :=
  ∀ i ∈ List.range n, i ∈ sched

instance (n : Nat) (sched : List Nat) : Decidable (completeSchedule n sched) :=
  inferInstanceAs (Decidable (∀ i ∈ List.range n, i ∈ sched))

/-- Embeds `GmailClient.searchEmails` (gmail-client.ts:55-81): list ids (`refs`,
`resultSizeEstimate`, `nextPageToken` are the fields of the list response;
`(res.data.messages || [])` means an absent list behaves as `[]`), shape each
id's details through the concurrently running fetches, and return the shaped
messages with the list response's metadata. `none` while some fetch is still
pending. -/
def searchEmails (store : String → GmailMessageData)
    (refs : Option (List MsgRef)) (resultSizeEstimate : Nat)
    (nextPageToken : Option String) (sched : List Nat) :
    Option SearchEmailsResult :=
  let msgs := refs.getD []
  (promiseAll (msgs.map (shapeMessage store)) sched).map
    (fun shaped =>
      { messages := shaped
        resultSizeEstimate := resultSizeEstimate
        nextPageToken := nextPageToken })

/-! ## send_html_email tool handler (part_000:500-543) -/

/-- Embeds the generated boundary token `boundary_` followed by `Date.now()` (part_000:509). -/
def htmlBoundary (now : Nat) : String := "boundary_" ++ toString now

/-- Embeds `plainText || 'This email requires HTML support'` (part_000:518):
absent or empty (falsy) plain text falls back to the fixed string. -/
def plainTextOrFallback (plainText : Option String) : String :=
  match plainText with
  | some t => if t ≠ "" then t else "This email requires HTML support"
  | none => "This email requires HTML support"

/-- The `messageParts` array of the `send_html_email` handler
(part_000:510-526): headers with a `multipart/alternative` Content-Type
carrying the generated boundary, then the text/plain part, then the
text/html part, each opened by a `--boundary` line, and the closing
`--boundary--` line. -/
def htmlMessageParts (now : Nat) (toAddrs : List String) (subject : String)
    (htmlBody : String) (plainText : Option String) : List String :=
  [ "To: " ++ joinAddrs toAddrs,
    "Subject: " ++ subject,
    "Content-Type: multipart/alternative; boundary=\"" ++ htmlBoundary now ++ "\"",
    "",
    "--" ++ htmlBoundary now,
    "Content-Type: text/plain; charset=utf-8",
    "",
    plainTextOrFallback plainText,
    "",
    "--" ++ htmlBoundary now,
    "Content-Type: text/html; charset=utf-8",
    "",
    htmlBody,
    "",
    "--" ++ htmlBoundary now ++ "--" ]

/-- The raw message of `send_html_email` (part_000:528). -/
def htmlMessage (now : Nat) (toAddrs : List String) (subject : String)
    (htmlBody : String) (plainText : Option String) : String :=
  crlfJoin (htmlMessageParts now toAddrs subject htmlBody plainText)

/-! ## Tool handlers of the server entry point (part_000) -/

/-- The `content` payload a tool handler returns to the protocol layer:
a text payload, flagged `isError` for the structured error shape. -/
structure ToolResponse where
  text : String
  isError : Bool := false
  deriving DecidableEq, Repr

/-- Embeds the `send_email` tool handler (part_000:118-146): the whole body is wrapped
in `try/catch`; the catch converts any thrown error into a structured
`isError` payload. `op` is the outcome of `gmailClient.sendEmail(...)`
(`ok` carries the message id, `error` the thrown error's `.message`). The
handler's own result is `Except`: a `.error` would be an exception escaping
the handler. -/
def sendEmailTool (op : Except String String) : Except String ToolResponse :=
  match op with
  | Except.ok messageId =>
      Except.ok { text := "Email sent successfully. Message ID: " ++ messageId }
  | Except.error msg =>
      Except.ok { text := "Error: " ++ msg, isError := true }

/-- Embeds the `search_emails` tool handler (part_000:149-174): `try/catch` around
`gmailClient.searchEmails`; `ok` carries the JSON-stringified results. -/
def searchEmailsTool (op : Except String String) : Except String ToolResponse :=
  match op with
  | Except.ok json => Except.ok { text := json }
  | Except.error msg =>
      Except.ok { text := "Error: " ++ msg, isError := true }

/-- Embeds the `read_email` tool handler (part_000:177-201): `try/catch` around
`gmailClient.getMessage`; `ok` carries the JSON-stringified message. -/
def readEmailTool (op : Except String String) : Except String ToolResponse :=
  match op with
  | Except.ok json => Except.ok { text := json }
  | Except.error msg =>
      Except.ok { text := "Error: " ++ msg, isError := true }

/-- Embeds the `manage_labels` tool handler (part_000:549-573): calls
`gmail.users.messages.modify(...)` with NO `try/catch`; a rejection of the
modify call propagates out of the handler unhandled. -/
def manageLabelsTool (op : Except String Unit) : Except String ToolResponse :=
  match op with
  | Except.ok _ => Except.ok { text := "Labels updated successfully" }
  | Except.error e => Except.error e

/-- Embeds the `send_html_email` tool handler (part_000:500-543): composes and sends the
multipart message with NO `try/catch`; a rejection of the send call
propagates out of the handler unhandled. -/
def sendHtmlEmailTool (op : Except String String) : Except String ToolResponse :=
  match op with
  | Except.ok id => Except.ok { text := "HTML email sent: " ++ id }
  | Except.error e => Except.error e

/-! ## Helper lemmas -/

theorem length_fillSlots (vals : List α) (sched : List Nat)
    (acc : List (Option α)) : (fillSlots vals sched acc).length = acc.length := by
  induction sched generalizing acc with
  | nil => rfl
  | cons i rest ih =>
    show (fillSlots vals rest (acc.set i vals[i]?)).length = acc.length
    rw [ih, List.length_set]

/-- Slot contents after a run of completions: a slot that some completion
wrote holds its own task's value; every other slot is untouched. -/
theorem getElem?_fillSlots (vals : List α) (sched : List Nat)
    (acc : List (Option α)) (j : Nat) :
    (fillSlots vals sched acc)[j]? =
      if j ∈ sched ∧ j < acc.length then some vals[j]? else acc[j]? := by
  induction sched generalizing acc with
  | nil => simp [fillSlots]
  | cons i rest ih =>
    show (fillSlots vals rest (acc.set i vals[i]?))[j]? = _
    rw [ih, List.length_set]
    by_cases hlt : j < acc.length
    · by_cases hjr : j ∈ rest
      · simp [hjr, hlt, List.mem_cons]
      · by_cases hji : i = j
        · subst hji
          simp [hjr, hlt, List.getElem?_set_self hlt, List.mem_cons]
        · rw [List.getElem?_set_ne hji]
          simp [hjr, hlt, List.mem_cons, Ne.symm hji]
    · have h1 : (acc.set i vals[i]?)[j]? = none :=
        List.getElem?_eq_none (by simpa using Nat.le_of_not_lt hlt)
      have h2 : acc[j]? = none := List.getElem?_eq_none (Nat.le_of_not_lt hlt)
      simp [hlt, h1, h2]

theorem collectSlots_map_some (l : List α) :
    collectSlots (l.map some) = some l := by
  induction l with
  | nil => rfl
  | cons a rest ih => simp [collectSlots, ih]

/-- When every task of a complete schedule has completed, the filled slots
are exactly the task results in original task order. -/
theorem fillSlots_complete (vals : List α) (sched : List Nat)
    (h : completeSchedule vals.length sched) :
    fillSlots vals sched (List.replicate vals.length none) = vals.map some := by
  apply List.ext_getElem?
  intro j
  rw [getElem?_fillSlots, List.length_replicate]
  by_cases hj : j < vals.length
  · have hmem : j ∈ sched := h j (List.mem_range.mpr hj)
    simp [hj, hmem, List.getElem?_eq_getElem hj]
  · have h1 : (List.replicate vals.length (none : Option α))[j]? = none :=
      List.getElem?_eq_none (by simpa using Nat.le_of_not_lt hj)
    have h2 : (vals.map some)[j]? = none :=
      List.getElem?_eq_none (by simpa using Nat.le_of_not_lt hj)
    simp [hj, h1, h2]

/-- A `Promise.all` whose schedule completes every task resolves to the task
results in original task order, whatever the completion order was. -/
theorem promiseAll_complete (vals : List α) (sched : List Nat)
    (h : completeSchedule vals.length sched) :
    promiseAll vals sched = some vals := by
  rw [promiseAll, fillSlots_complete vals sched h, collectSlots_map_some]

/-! ## Claim theorems -/

/-- C4: for every non-empty `to` list, subject and body, with no cc and no
bcc, `sendEmail` composes a message whose header block contains a `To:`
header equal to the recipients joined by `', '` and a `Subject:` header equal
to the subject, followed by a blank line, and whose body after the blank line
is exactly the given body string. -/
theorem sendMessage_plain_structure (toAddrs : List String)
    (subject body : String) (_hto : toAddrs ≠ []) :
    sendMessageParts ⟨toAddrs, subject, body, none, none⟩ =
      ["To: " ++ joinAddrs toAddrs, "Subject: " ++ subject,
       "Content-Type: text/plain; charset=utf-8", "", body] ∧
    sendMessage ⟨toAddrs, subject, body, none, none⟩ =
      "To: " ++ joinAddrs toAddrs ++ "\r\n" ++ "Subject: " ++ subject ++
        "\r\n" ++ "Content-Type: text/plain; charset=utf-8" ++ "\r\n" ++
        "\r\n" ++ body := by
  constructor
  · simp [sendMessageParts]
  · apply String.ext
    simp [sendMessage, sendMessageParts, crlfJoin]

/-- Witness for C4: the spec's own example, `to=["a@x.com","b@y.com"]`,
`subject="Hi"`, `body="Hello"`. -/
theorem sendMessage_plain_structure_witness :
    sendMessage ⟨["a@x.com", "b@y.com"], "Hi", "Hello", none, none⟩ =
      "To: a@x.com, b@y.com\r\nSubject: Hi\r\nContent-Type: text/plain; charset=utf-8\r\n\r\nHello" := by
  rw [(sendMessage_plain_structure ["a@x.com", "b@y.com"] "Hi" "Hello"
    (by decide)).2]
  decide

/-- C7: for every credential whose `expiry_date` is set (truthy, i.e. a
positive timestamp), `refreshTokenIfNeeded` enters the refresh path exactly
when `now >= expiry_date`, inclusive at the boundary: expiry equal to the
current instant is refreshed, strictly future expiry is not. -/
theorem refreshTokenIfNeeded_inclusive_boundary (now e : Nat)
    (c : Credentials) (exchange : Except AuthError Credentials)
    (hset : c.expiry_date = some e) (hpos : 0 < e) :
    Ev.refreshExchange ∈ (refreshTokenIfNeeded now c exchange).2 ↔ e ≤ now := by
  have hne : e ≠ 0 := Nat.pos_iff_ne_zero.mp hpos
  have hg : refreshGuard now c = decide (e ≤ now) := by
    simp [refreshGuard, expiryTruthy, hset, hne, ge_iff_le]
  by_cases h : e ≤ now
  · cases exchange <;> simp [refreshTokenIfNeeded, hg, h]
  · simp [refreshTokenIfNeeded, hg, h]

/-- Witness for C7: a token whose expiry equals the current instant
(`now = expiry_date = 1000`) is treated as expired and refreshed. -/
theorem refreshTokenIfNeeded_inclusive_boundary_witness :
    Ev.refreshExchange ∈
      (refreshTokenIfNeeded 1000 ⟨some "tok", some "r", some 1000⟩
        (Except.ok ⟨some "tok2", some "r", some 2000⟩)).2 :=
  (refreshTokenIfNeeded_inclusive_boundary 1000 1000 _ _ rfl
    (by decide)).mpr (by decide)

/-- C9: for every HTML send with both `htmlBody` and `plainText` supplied,
the composed message is a single multipart/alternative container holding
exactly two MIME parts, the plain-text part first and the HTML part second,
both delimited by `--boundary` lines using the same generated boundary token
and terminated by a final `--boundary--` line. -/
theorem sendHtmlEmail_multipart_structure (now : Nat) (toAddrs : List String)
    (subject htmlBody pt : String) (hpt : pt ≠ "") :
    htmlMessageParts now toAddrs subject htmlBody (some pt) =
      ["To: " ++ joinAddrs toAddrs,
       "Subject: " ++ subject,
       "Content-Type: multipart/alternative; boundary=\"" ++ htmlBoundary now ++ "\"",
       "",
       "--" ++ htmlBoundary now,
       "Content-Type: text/plain; charset=utf-8",
       "",
       pt,
       "",
       "--" ++ htmlBoundary now,
       "Content-Type: text/html; charset=utf-8",
       "",
       htmlBody,
       "",
       "--" ++ htmlBoundary now ++ "--"] ∧
    (htmlMessageParts now toAddrs subject htmlBody (some pt)).length = 15 ∧
    (htmlMessageParts now toAddrs subject htmlBody (some pt))[4]? =
      (htmlMessageParts now toAddrs subject htmlBody (some pt))[9]? ∧
    (htmlMessageParts now toAddrs subject htmlBody (some pt))[14]? =
      some ("--" ++ htmlBoundary now ++ "--") := by
  refine ⟨?_, ?_, ?_, ?_⟩ <;>
    simp [htmlMessageParts, plainTextOrFallback, hpt]

/-- Witness for C9: a concrete HTML send with both bodies supplied; the two
part delimiters carry the same `boundary_1234` token, the plain part comes
first, the html part second, and the terminator closes the container. -/
theorem sendHtmlEmail_multipart_structure_witness :
    htmlMessageParts 1234 ["a@x.com"] "Hi" "<b>x</b>" (some "plain") =
      ["To: a@x.com", "Subject: Hi",
       "Content-Type: multipart/alternative; boundary=\"boundary_1234\"", "",
       "--boundary_1234", "Content-Type: text/plain; charset=utf-8", "",
       "plain", "",
       "--boundary_1234", "Content-Type: text/html; charset=utf-8", "",
       "<b>x</b>", "",
       "--boundary_1234--"] := by
  rw [(sendHtmlEmail_multipart_structure 1234 ["a@x.com"] "Hi" "<b>x</b>"
    "plain" (by decide)).1]
  decide

/-- C10: for every credential whose `expiry_date` is absent, `null` or `0`
(all falsy in the guard), `refreshTokenIfNeeded` performs no refresh exchange
and returns with the stored credentials unchanged, even if the access token
is stale or missing. -/
theorem refreshTokenIfNeeded_untruthy_expiry_noop (now : Nat)
    (c : Credentials) (exchange : Except AuthError Credentials)
    (h : c.expiry_date = none ∨ c.expiry_date = some 0) :
    refreshTokenIfNeeded now c exchange = (Except.ok c, []) := by
  rcases h with h | h <;>
    simp [refreshTokenIfNeeded, refreshGuard, expiryTruthy, h]

/-- Witness for C10: a credential with `expiry_date = 0` and no access token
at all is returned unchanged with no refresh, even though the exchange would
have failed terminally. -/
theorem refreshTokenIfNeeded_untruthy_expiry_noop_witness :
    refreshTokenIfNeeded 1700000000000 ⟨none, some "r", some 0⟩
        (Except.error AuthError.invalidGrant) =
      (Except.ok ⟨none, some "r", some 0⟩, []) :=
  refreshTokenIfNeeded_untruthy_expiry_noop _ _ _ (Or.inr rfl)

/-- C8: for every message object and header name, `extractHeader` returns
the value of the first header whose name matches the requested name
case-insensitively, and returns the empty string, never raising a fault,
when the payload, the headers list, a matching header, or its value is
absent (`Option.getD "" ` yields `""` for an absent value). -/
theorem extractHeader_first_match_or_empty (m : GmailMessageData)
    (headerName : String) :
    (m.payload = none → extractHeader m headerName = "") ∧
    (∀ p, m.payload = some p → p.headers = none →
      extractHeader m headerName = "") ∧
    (∀ p hs, m.payload = some p → p.headers = some hs →
      (∀ h ∈ hs, headerMatches headerName h = false) →
      extractHeader m headerName = "") ∧
    (∀ p hs pre h post, m.payload = some p → p.headers = some hs →
      hs = pre ++ h :: post →
      headerMatches headerName h = true →
      (∀ h0 ∈ pre, headerMatches headerName h0 = false) →
      extractHeader m headerName = h.value.getD "") := by
  refine ⟨?_, ?_, ?_, ?_⟩
  · intro h
    simp [extractHeader, h]
  · intro p hp hh
    simp [extractHeader, hp, hh]
  · intro p hs hp hh hnone
    have hfind : hs.find? (headerMatches headerName) = none :=
      List.find?_eq_none.mpr (by intro x hx; simp [hnone x hx])
    simp [extractHeader, hp, hh, hfind]
  · intro p hs pre h post hp hh hdecomp hm hbefore
    have hpre : pre.find? (headerMatches headerName) = none :=
      List.find?_eq_none.mpr (by intro x hx; simp [hbefore x hx])
    have hfind : hs.find? (headerMatches headerName) = some h := by
      rw [hdecomp, List.find?_append, hpre, List.find?_cons_of_pos _ hm]
      rfl
    cases hv : h.value <;>
      simp [extractHeader, hp, hh, hfind, hv]

/-- Witness for C8: with two case-variant `Subject` headers after a
non-matching one, the first match (`SUBJECT`) wins; a message with no
payload yields the empty string. -/
theorem extractHeader_first_match_or_empty_witness :
    extractHeader
        ⟨"id1", "t1", "snip",
          some ⟨some [⟨"X-Test", some "zzz"⟩, ⟨"SUBJECT", some "first"⟩,
            ⟨"subject", some "second"⟩]⟩⟩ "Subject" = "first" ∧
    extractHeader ⟨"id2", "t2", "snip2", none⟩ "Subject" = "" := by
  constructor
  · exact (extractHeader_first_match_or_empty
      ⟨"id1", "t1", "snip",
        some ⟨some [⟨"X-Test", some "zzz"⟩, ⟨"SUBJECT", some "first"⟩,
          ⟨"subject", some "second"⟩]⟩⟩ "Subject").2.2.2
      ⟨some [⟨"X-Test", some "zzz"⟩, ⟨"SUBJECT", some "first"⟩,
        ⟨"subject", some "second"⟩]⟩
      [⟨"X-Test", some "zzz"⟩, ⟨"SUBJECT", some "first"⟩,
        ⟨"subject", some "second"⟩]
      [⟨"X-Test", some "zzz"⟩] ⟨"SUBJECT", some "first"⟩
      [⟨"subject", some "second"⟩]
      rfl rfl (by decide) (by decide) (by decide)
  · exact (extractHeader_first_match_or_empty
      ⟨"id2", "t2", "snip2", none⟩ "Subject").1 rfl

/-- C3: for every sequence of message ids returned by the list call,
`searchEmails` returns the shaped results in exactly that sequence order
(the k-th result corresponds to the k-th listed id), regardless of the
completion order of the concurrent per-id detail fetches: any complete
schedule resolves to the list-order results. -/
theorem searchEmails_preserves_list_order (store : String → GmailMessageData)
    (refs : List MsgRef) (est : Nat) (tok : Option String)
    (sched : List Nat) (hsched : completeSchedule refs.length sched)
    (k : Nat) (hk : k < refs.length) :
    searchEmails store (some refs) est tok sched =
      some ⟨refs.map (shapeMessage store), est, tok⟩ ∧
    ((refs.map (shapeMessage store))[k]?).map ShapedMessage.id =
      (refs[k]?).map MsgRef.id ∧
    (refs.map (shapeMessage store))[k]? =
      some (shapeMessage store refs[k]) := by
  have hlen : (refs.map (shapeMessage store)).length = refs.length :=
    List.length_map ..
  refine ⟨?_, ?_, ?_⟩
  · rw [searchEmails]
    simp only [Option.getD]
    rw [promiseAll_complete _ _ (by rw [hlen]; exact hsched)]
    rfl
  · rw [List.getElem?_eq_getElem (by rw [hlen]; exact hk),
      List.getElem?_eq_getElem hk]
    simp [shapeMessage]
  · rw [List.getElem?_eq_getElem (by rw [hlen]; exact hk)]
    simp

/-- Witness for C3: the spec's example, list order `[m3, m1, m2]` with the
detail fetches completing in a different order (schedule `[1, 2, 0]`): the
shaped results keep ids `m3, m1, m2` in list order. -/
theorem searchEmails_preserves_list_order_witness :
    searchEmails (fun i => ⟨i, "t", "s-" ++ i, none⟩)
        (some [⟨"m3", "t3"⟩, ⟨"m1", "t1"⟩, ⟨"m2", "t2"⟩]) 3 none [1, 2, 0] =
      some ⟨[⟨"m3", "t3", "s-m3", "", "", ""⟩, ⟨"m1", "t1", "s-m1", "", "", ""⟩,
        ⟨"m2", "t2", "s-m2", "", "", ""⟩], 3, none⟩ := by
  rw [(searchEmails_preserves_list_order (fun i => ⟨i, "t", "s-" ++ i, none⟩)
    [⟨"m3", "t3"⟩, ⟨"m1", "t1"⟩, ⟨"m2", "t2"⟩] 3 none [1, 2, 0]
    (by decide) 0 (by decide)).1]
  decide

/-- C1 counterexample: at a concrete expired credential (expiry 100, now
200, so the refresh guard of `AuthManager.refreshTokenIfNeeded` holds) and a
concrete send, the trace of `GmailClient.sendEmail` performs the mail API
call with no refresh attempt anywhere in it: an expired access token is
presented directly to the mail API, so no refresh precedes the call. -/
theorem sendEmail_no_refresh_before_call_cex :
    refreshGuard 200 ⟨some "stale", some "r", some 100⟩ = true ∧
    Ev.refreshExchange ∉ sendEmailEvents ⟨["a@x.com"], "Hi", "Hello", none, none⟩ ∧
    sendEmailEvents ⟨["a@x.com"], "Hi", "Hello", none, none⟩ =
      [Ev.apiSend "To: a@x.com\r\nSubject: Hi\r\nContent-Type: text/plain; charset=utf-8\r\n\r\nHello"] := by
  refine ⟨by decide, by decide, by decide⟩

/-- C1 (amended): even when the credential is expired at the instant the
operation begins, `sendEmail` performs no refresh attempt at all: its trace
is exactly the single mail API call carrying the composed message, and the
token-refresh guard (`AuthManager.refreshTokenIfNeeded`) is not invoked by
any mail operation. -/
theorem sendEmail_presents_credential_directly (now : Nat) (c : Credentials)
    (p : SendParams) (_hexpired : refreshGuard now c = true) :
    sendEmailEvents p = [Ev.apiSend (sendMessage p)] ∧
    Ev.refreshExchange ∉ sendEmailEvents p := by
  constructor
  · rfl
  · simp [sendEmailEvents]

/-- Witness for amended C1 at the counterexample's input. -/
theorem sendEmail_presents_credential_directly_witness :
    sendEmailEvents ⟨["b@y.com"], "S", "B", none, none⟩ =
      [Ev.apiSend (sendMessage ⟨["b@y.com"], "S", "B", none, none⟩)] ∧
    Ev.refreshExchange ∉ sendEmailEvents ⟨["b@y.com"], "S", "B", none, none⟩ :=
  sendEmail_presents_credential_directly 200 ⟨some "stale", some "r", some 100⟩
    ⟨["b@y.com"], "S", "B", none, none⟩ (by decide)

/-- C2 counterexample: a send invocation with an empty `to` list does not
fail validation and does submit a request to the mail API: the trace is the
API call itself, carrying a message whose `To:` header value is empty. -/
theorem sendEmail_empty_to_cex :
    sendEmailEvents ⟨[], "Hi", "Hello", none, none⟩ =
      [Ev.apiSend "To: \r\nSubject: Hi\r\nContent-Type: text/plain; charset=utf-8\r\n\r\nHello"] := by
  decide

/-- C2 (amended): `sendEmail` performs no recipient validation: for every
subject and body, an empty `to` list yields a message whose `To:` header
value is empty, and the request is still submitted to the mail API (exactly
one API call, no validation failure). -/
theorem sendEmail_empty_to_submits (subject body : String) :
    sendMessageParts ⟨[], subject, body, none, none⟩ =
      ["To: ", "Subject: " ++ subject,
       "Content-Type: text/plain; charset=utf-8", "", body] ∧
    sendEmailEvents ⟨[], subject, body, none, none⟩ =
      [Ev.apiSend (sendMessage ⟨[], subject, body, none, none⟩)] := by
  constructor
  · have happ : "To: " ++ joinAddrs [] = "To: " := by decide
    simp [sendMessageParts, happ]
  · rfl

/-- C5 counterexample: the `manage_labels` tool handler has no `try/catch`;
when the underlying `users.messages.modify` call fails, the failure
propagates out of the handler as a thrown exception instead of a structured
error payload (and likewise for `send_html_email`). -/
theorem manageLabels_propagates_throw_cex :
    manageLabelsTool (Except.error "insufficient authentication scopes") =
      Except.error "insufficient authentication scopes" ∧
    sendHtmlEmailTool (Except.error "invalid recipient") =
      Except.error "invalid recipient" := by
  exact ⟨rfl, rfl⟩

/-- C5 (amended): the `send_email`, `search_emails` and `read_email` tool
handlers return a payload for every outcome of the underlying operation --
a success payload on success and a structured `isError` payload on failure
-- and never propagate a thrown exception; the `manage_labels` and
`send_html_email` handlers, which have no `try/catch`, propagate every
underlying failure past the tool boundary. -/
theorem toolHandlers_error_surface (op : Except String String) :
    (∃ r, sendEmailTool op = Except.ok r) ∧
    (∃ r, searchEmailsTool op = Except.ok r) ∧
    (∃ r, readEmailTool op = Except.ok r) ∧
    (∀ msg, sendEmailTool (Except.error msg) =
      Except.ok ⟨"Error: " ++ msg, true⟩) ∧
    (∀ e, manageLabelsTool (Except.error e) = Except.error e) ∧
    (∀ e, sendHtmlEmailTool (Except.error e) = Except.error e) := by
  refine ⟨?_, ?_, ?_, fun msg => rfl, fun e => rfl, fun e => rfl⟩ <;>
    cases op <;> exact ⟨_, rfl⟩

/-- C6 counterexample: on a terminal `invalid_grant` refresh failure at a
concrete expired credential, `AuthManager.refreshTokenIfNeeded` rethrows the
raw `invalid_grant` error, not a `ReauthenticationRequiredError`; and the
tutorial's error-handling variant re-runs the authentication flow, which
launches the interactive consent flow when no stored credentials load. -/
theorem refresh_invalid_grant_cex :
    (refreshTokenIfNeeded 200 ⟨some "stale", some "r", some 100⟩
        (Except.error AuthError.invalidGrant)).1 =
      Except.error AuthError.invalidGrant ∧
    (refreshTokenIfNeeded 200 ⟨some "stale", some "r", some 100⟩
        (Except.error AuthError.invalidGrant)).1 ≠
      Except.error AuthError.reauthenticationRequired ∧
    Ev.consentLaunch ∈
      (refreshTokenIfNeededVariant 200 ⟨some "stale", some "r", some 100⟩
        (Except.error AuthError.invalidGrant) none
        ⟨some "fresh", some "r2", some 9999⟩).2 := by
  refine ⟨rfl, ?_, by decide⟩
  intro h
  exact AuthError.noConfusion (Except.error.inj h)

/-- C6 (amended): on a terminal `invalid_grant` refresh failure with the
refresh guard satisfied, `AuthManager.refreshTokenIfNeeded` performs exactly
one refresh exchange (no retry), launches no consent flow, and rethrows the
original error unchanged (no distinct `ReauthenticationRequiredError` is
ever surfaced); the tutorial variant instead swallows the error and re-runs
the authentication flow, launching the interactive consent flow whenever no
stored credentials load. -/
theorem refresh_terminal_error_behavior (now : Nat) (c : Credentials)
    (hexpired : refreshGuard now c = true) :
    (refreshTokenIfNeeded now c (Except.error AuthError.invalidGrant)).1 =
      Except.error AuthError.invalidGrant ∧
    (refreshTokenIfNeeded now c (Except.error AuthError.invalidGrant)).2 =
      [Ev.refreshExchange] ∧
    (∀ consent,
      refreshTokenIfNeededVariant now c (Except.error AuthError.invalidGrant)
        none consent =
      (Except.ok consent, [Ev.refreshExchange, Ev.consentLaunch])) := by
  refine ⟨?_, ?_, fun consent => ?_⟩ <;>
    simp [refreshTokenIfNeeded, refreshTokenIfNeededVariant,
      authenticateFlow, hexpired]

/-- Witness for amended C6 at a concrete expired credential. -/
theorem refresh_terminal_error_behavior_witness :
    (refreshTokenIfNeeded 200 ⟨some "old", some "r", some 100⟩
        (Except.error AuthError.invalidGrant)).1 =
      Except.error AuthError.invalidGrant ∧
    (refreshTokenIfNeeded 200 ⟨some "old", some "r", some 100⟩
        (Except.error AuthError.invalidGrant)).2 =
      [Ev.refreshExchange] ∧
    (∀ consent,
      refreshTokenIfNeededVariant 200 ⟨some "old", some "r", some 100⟩
        (Except.error AuthError.invalidGrant) none consent =
      (Except.ok consent, [Ev.refreshExchange, Ev.consentLaunch])) :=
  refresh_terminal_error_behavior 200 ⟨some "old", some "r", some 100⟩
    (by decide)

end GmailMcp
